import Mathlib

/-!
Verification of the trace middleware pipeline (`internal/trace/trace.go`):
a Gin middleware that enqueues per-request trace records into a bounded
channel, a single background worker that batches them by size or time,
and an asynchronous writer with chunking and bounded retry.

The Go code is shallowly embedded: pure pieces become Lean functions,
the worker loop becomes a function over an explicit event list, the
spawned flush goroutine becomes an explicit task semantics driven by a
write oracle, and Go slices (for the aliasing analysis) become views
into numbered backing arenas.  Go `int`/`int64` counts and durations are
modelled as `Nat` (all values reached by the claims are nonnegative);
durations are in nanoseconds, matching `time.Duration`.
-/

namespace Trace

/-- The `Step` record struct (trace.go lines 16-26).  The gorm column
tags are storage concerns and carry no semantics here. -/
structure Step where
  traceID : String
  userID : String
  path : String
  method : String
  statusCode : Int
  latencyMs : Int
  ip : String
  userAgent : String
  createdAt : Int
deriving DecidableEq, Repr

/-- The `Config` struct (trace.go lines 29-37).  The `DB *gorm.DB`
handle is an external resource, not data, and is omitted; the remaining
six fields are all the tunables the struct carries. -/
structure Config where
  flushIntervalNs : Nat
  batchSize : Nat
  bufferSize : Nat
  maxOpenConn : Nat
  maxIdleConn : Nat
  connMaxLifetimeNs : Nat
deriving DecidableEq, Repr

/-- Modelled from the spec: "Configuration surface (all with defaults):
queue capacity, batch-size threshold, flush interval, max open/idle
connections, connection lifetime, max retry attempts, chunk size"
(spec section 6).  The last two have no counterpart in the `Config`
struct of the source; this structure records the surface the spec
describes, to compare against the code. -/
structure SpecConfig where
  bufferSize : Nat
  batchSize : Nat
  flushIntervalNs : Nat
  maxOpenConn : Nat
  maxIdleConn : Nat
  connMaxLifetimeNs : Nat
  maxRetries : Nat
  chunkSize : Nat
deriving DecidableEq, Repr

/-- A Go channel of buffer kind: either the nil channel (the zero value
of the package-level `var buffer chan Step`, line 100, before `Start`
runs) or a buffered channel with a fixed capacity and current queue. -/
inductive Chan (α : Type) where
  | nil
  | buffered (cap : Nat) (q : List α)
deriving DecidableEq

/-- Whether a send on the channel can proceed immediately: never on the
nil channel; on a buffered channel, exactly when the buffer is not full. -/
def sendReady : Chan α → Bool
  | .nil => false
  | .buffered cap q => decide (q.length < cap)

/-- The `select { case buffer <- step: default: }` statement
(trace.go lines 174-179): if the send is ready it happens, otherwise the
default branch drops the record; the caller is never blocked either way.
Returns the channel afterwards and whether the record was enqueued. -/
def trySend (c : Chan α) (x : α) : Chan α × Bool :=
  match c with
  | .nil => (.nil, false)
  | .buffered cap q =>
    if q.length < cap then (.buffered cap (q ++ [x]), true)
    else (.buffered cap q, false)

/-- `Start` (line 104) allocates the buffer: `make(chan Step, cfg.BufferSize)`. -/
def startBuffer (cfg : Config) : Chan Step := .buffered cfg.bufferSize []

/-- `Start` (line 118) launches the worker with exactly
`cfg.FlushInterval` and `cfg.BatchSize`; nothing else of the
configuration reaches the worker or the writer. -/
def startWorkerArgs (cfg : Config) : Nat × Nat :=
  (cfg.flushIntervalNs, cfg.batchSize)

/-! ## Persistence writer -/

/-- Outcome of one `db.CreateInBatches` call on one chunk, chosen by a
write oracle: success, an error return, or a runtime panic. -/
inductive WriteOut where
  | ok
  | fail
  | panicked
deriving DecidableEq, Repr

/-- Result of one whole `flushWithRetry` invocation: returned nil,
returned an error, or panicked out of it. -/
inductive AttemptResult where
  | success
  | failed
  | panicked
deriving DecidableEq, Repr

/-- Trace of one `flushWithRetry` invocation: the chunks whose write
completed, in order, and how the invocation ended. -/
structure AttemptTrace where
  written : List (List Step)
  result : AttemptResult
deriving DecidableEq, Repr

/-- The chunk decomposition performed by the loop in `flushWithRetry`
(trace.go lines 251-258): slices `logs[i:i+bs]` for `i = 0, bs, 2bs, ...`
with `bs = min 500 logs.length` (line 248).  For an empty list the loop
body never runs; `bs = 0` occurs only in that case in the source. -/
def chunksGo (bs : Nat) : Nat → List Step → List (List Step)
  | _, [] => []
  | 0, _ :: _ => []
  | fuel + 1, x :: xs => (x :: xs).take bs :: chunksGo bs fuel ((x :: xs).drop bs)

/-- The chunk list of a batch.  The loop runs at most `logs.length`
iterations (each one consumes at least one record when `bs > 0`), so
`logs.length` serves as structural fuel; `bs = 0` happens only for an
empty batch in the source, where the loop body never runs. -/
def chunksOf (bs : Nat) (l : List Step) : List (List Step) :=
  if bs = 0 then [] else chunksGo bs l.length l

/-- The lengths of the chunks of a batch of `n` records, computed on
numbers alone (mirror of `chunksGo` through `List.length`). -/
def lenChunksGo (bs : Nat) : Nat → Nat → List Nat
  | _, 0 => []
  | 0, _ + 1 => []
  | fuel + 1, n + 1 => min bs (n + 1) :: lenChunksGo bs fuel (n + 1 - bs)

/-- The sequential chunk-write loop of `flushWithRetry` (lines 251-258):
write each chunk in order; on the first error return immediately with
the remaining chunks unwritten; a panic likewise aborts the loop. -/
def runChunks (w : Nat → WriteOut) : List (List Step) → Nat → AttemptTrace
  | [], _ => ⟨[], .success⟩
  | c :: cs, i =>
    match w i with
    | .ok =>
      let t := runChunks w cs (i + 1)
      ⟨c :: t.written, t.result⟩
    | .fail => ⟨[], .failed⟩
    | .panicked => ⟨[], .panicked⟩

/-- `flushWithRetry` (trace.go lines 246-261): chunk the batch with
`bs = min 500 len(logs)` and write the chunks sequentially from the
first; the oracle `w` gives the outcome of the write of chunk `i`. -/
def flushWithRetry (w : Nat → WriteOut) (logs : List Step) : AttemptTrace :=
  runChunks w (chunksOf (min 500 logs.length) logs) 0

/-- The `maxRetries := 3` local constant of `flush` (trace.go line 227). -/
def maxRetries : Nat := 3

/-- One second in nanoseconds: the base delay unit of
`time.Duration(attempt) * time.Second` (trace.go line 235). -/
def secondNs : Nat := 1000000000

/-- How the spawned flush goroutine ends: logged success with a record
count, logged permanent failure after exhausting retries, a panic that
escaped the retry loop (before the deferred recover), the deferred
recover having caught and logged a panic, or the for-loop falling
through (unreachable from the source loop bounds). -/
inductive TaskOutcome where
  | successLogged (n : Nat)
  | failureLogged
  | panicEscaped
  | panicLogged
  | loopExhausted
deriving DecidableEq, Repr

/-- Trace of the flush goroutine: the `flushWithRetry` invocations in
order (attempt numbers 1, 2, ...), the backoff sleeps performed in
order (nanoseconds), and the final outcome. -/
structure TaskTrace where
  attempts : List AttemptTrace
  delays : List Nat
  outcome : TaskOutcome
deriving DecidableEq, Repr

/-- The retry for-loop of `flush` (trace.go lines 228-241), before the
deferred recover is taken into account.  `w a i` is the outcome of the
write of chunk `i` during attempt `a`.  Called with `attempt = 1` and
`fuel = maxRetries`; on an error at `attempt = maxRetries` the failure
is logged and the batch dropped, otherwise the loop sleeps
`attempt * time.Second` and retries; a panic unwinds out of the loop. -/
def flushRetryLoop (w : Nat → Nat → WriteOut) (logs : List Step) :
    Nat → Nat → TaskTrace
  | _, 0 => ⟨[], [], .loopExhausted⟩
  | attempt, fuel + 1 =>
    let t := flushWithRetry (w attempt) logs
    match t.result with
    | .panicked => ⟨[t], [], .panicEscaped⟩
    | .success => ⟨[t], [], .successLogged logs.length⟩
    | .failed =>
      if attempt = maxRetries then ⟨[t], [], .failureLogged⟩
      else
        let r := flushRetryLoop w logs (attempt + 1) fuel
        ⟨t :: r.attempts, attempt * secondNs :: r.delays, r.outcome⟩

/-- The body of the goroutine spawned by `flush` (trace.go lines
219-242): the retry loop guarded by `defer recover` (lines 220-224),
which catches any panic that escapes the loop, logs it, and lets the
goroutine terminate normally, so the panic never crosses the goroutine
boundary. -/
def flushGoroutine (w : Nat → Nat → WriteOut) (logs : List Step) : TaskTrace :=
  let t := flushRetryLoop w logs 1 maxRetries
  match t.outcome with
  | .panicEscaped => ⟨t.attempts, t.delays, .panicLogged⟩
  | _ => t

/-- What `flush` does synchronously on the callers (the workers) own
goroutine (trace.go lines 214-219): if the batch is empty, nothing;
otherwise spawn the write task for exactly this batch and return at
once.  The returned list is the batches handed to spawned tasks. -/
def flushSpawn (logs : List Step) : List (List Step) :=
  if logs.length = 0 then [] else [logs]

/-! ## Worker loop -/

/-- One event the `select` of `startWorker` can observe: a record
received from the buffer, a ticker tick, or the buffer channel observed
closed. -/
inductive WEvent where
  | recv (s : Step)
  | tick
  | closed
deriving DecidableEq, Repr

/-- Result of running the worker loop over an event list: the batches
handed to spawned flush tasks in spawn order, the in-progress batch
when the events ran out, and whether `startWorker` returned. -/
structure WorkerRun where
  spawned : List (List Step)
  buf : List Step
  returned : Bool
deriving DecidableEq, Repr

/-- The `startWorker` loop (trace.go lines 189-211) run over an
explicit event list, starting from in-progress batch `buf`.
On `recv s`: append, and if the batch length reaches `batchSize`,
flush it and reset with `buf = buf[:0]` (lines 200-204).
On `tick`: flush a non-empty batch and reset (lines 205-209).
On `closed`: flush a non-empty batch and return (lines 192-198);
later events are unreachable. -/
def runWorker (batchSize : Nat) : List Step → List WEvent → WorkerRun
  | buf, [] => ⟨[], buf, false⟩
  | buf, .closed :: _ => ⟨flushSpawn buf, buf, true⟩
  | buf, .recv s :: es =>
    let b := buf ++ [s]
    if batchSize ≤ b.length then
      let r := runWorker batchSize [] es
      ⟨flushSpawn b ++ r.spawned, r.buf, r.returned⟩
    else
      runWorker batchSize b es
  | buf, .tick :: es =>
    if 0 < buf.length then
      let r := runWorker batchSize [] es
      ⟨flushSpawn buf ++ r.spawned, r.buf, r.returned⟩
    else
      runWorker batchSize buf es

/-- A schedule records how many of the spawned flush tasks have run to
completion by the time the return of `startWorker` is observed.  Go
gives no guarantee that a spawned goroutine runs before its spawner
proceeds, so every `k` up to the number of spawned tasks is a legal
schedule, including `k = 0`. -/
def legalSchedule (r : WorkerRun) (k : Nat) : Prop :=
  k ≤ r.spawned.length

/-- The batches whose write has completed by the return of
`startWorker`, under the schedule in which the first `k` spawned tasks
have finished. -/
def completedUnder (r : WorkerRun) (k : Nat) : List (List Step) :=
  r.spawned.take k

instance (r : WorkerRun) (k : Nat) : Decidable (legalSchedule r k) := by
  unfold legalSchedule; infer_instance

/-- The whole pipeline under a write oracle `w`: the worker run over
the events, together with the traces of the flush tasks it spawned,
each resolved by `w`.  The worker component is computed without
reference to `w`: the spawned goroutine communicates nothing back to
the loop (trace.go lines 219-242 return nothing and share no error
variable with `startWorker`). -/
def systemRun (w : Nat → Nat → WriteOut) (batchSize : Nat) (buf : List Step)
    (es : List WEvent) : WorkerRun × List TaskTrace :=
  let r := runWorker batchSize buf es
  (r, r.spawned.map (flushGoroutine w))

/-! ## Storage-level view of the batch slice

For the batch-ownership claim, values are not enough: the Go batch is a
slice, and `buf = buf[:0]` (lines 203, 208) keeps the same backing
array.  A slice is modelled as a view into a numbered backing arena
(all slices here start at offset 0, as in the source); a cell is an
(arena, index) pair. -/

/-- A Go slice header: backing arena id, length, capacity.  Offsets are
always 0 in the source (`buf[:0]` and `append` keep the base pointer). -/
structure GoSlice where
  arena : Nat
  length : Nat
  capacity : Nat
deriving DecidableEq, Repr

/-- The cells a reader of the slice accesses: indices `0..length-1` of
its arena. -/
def cellsOf (s : GoSlice) : List (Nat × Nat) :=
  (List.range s.length).map fun i => (s.arena, i)

/-- The reslice `buf = buf[:0]` (lines 203, 208): length 0, same arena,
same capacity — the storage is reused, not reallocated. -/
def resetKeep (s : GoSlice) : GoSlice :=
  { s with length := 0 }

/-- Go `append(buf, x)` of one element: if there is spare capacity the
element is written in place into cell `(arena, length)` of the existing
arena; otherwise the slice is copied to a fresh arena and the element
written there.  (The exact capacity growth factor is immaterial to the
claims; any fresh arena id not in use suffices.)  Returns the new
header and the cell written. -/
def goAppendCell (fresh : Nat) (s : GoSlice) : GoSlice × Nat × Nat :=
  if s.length < s.capacity then
    ({ s with length := s.length + 1 }, s.arena, s.length)
  else
    ({ arena := fresh, length := s.length + 1, capacity := 2 * s.capacity + 1 },
      fresh, s.length)

/-- Storage-level worker state: the batch slice header and the next
unused arena id. -/
structure SWorker where
  buf : GoSlice
  fresh : Nat
deriving DecidableEq, Repr

/-- Result of one storage-level `recv` step: the new state, the slice
header handed to `flush` if the threshold was reached, and the cell the
append wrote. -/
structure SRecvOut where
  state : SWorker
  handed : Option GoSlice
  wrote : Nat × Nat
deriving DecidableEq, Repr

/-- The `recv` branch of `startWorker` at storage level (lines
200-204): `buf = append(buf, log)`; if `len(buf) >= batchSize`,
`flush(db, buf)` hands the current header to the flush goroutine and
`buf = buf[:0]` reuses the same backing arena. -/
def sRecv (batchSize : Nat) (st : SWorker) : SRecvOut :=
  let a := goAppendCell st.fresh st.buf
  let next := if a.1.arena = st.buf.arena then st.fresh else st.fresh + 1
  if batchSize ≤ a.1.length then
    ⟨⟨resetKeep a.1, next⟩, some a.1, a.2⟩
  else
    ⟨⟨a.1, next⟩, none, a.2⟩

/-- The initial batch slice of `startWorker` (line 187):
`make([]Step, 0, batchSize*2)`, arena 0. -/
def sInit (batchSize : Nat) : SWorker :=
  ⟨⟨0, 0, batchSize * 2⟩, 1⟩

/-! ## SHA-256 and the default trace id

The default trace id generator (trace.go lines 60-63) is
`fmt.Sprintf("%s:%s", userID, hex.EncodeToString(h[:]))` with
`h := sha256.Sum256([]byte(token))`.  The `crypto/sha256` primitive is
not part of this repository; it is embedded here directly from
FIPS 180-4, over `Nat` with explicit reduction modulo 2^32. -/

/-- 2^32, the word modulus of SHA-256. -/
def w32 : Nat := 4294967296

/-- Addition of 32-bit words modulo 2^32. -/
def add32 (a b : Nat) : Nat := (a + b) % w32

/-- Right rotation of a 32-bit word by `n`, written arithmetically:
the low `n` bits move to the top, the rest shift down. -/
def rotr (n x : Nat) : Nat := x % 2 ^ n * 2 ^ (32 - n) + x / 2 ^ n

/-- Logical right shift of a 32-bit word. -/
def shr (n x : Nat) : Nat := x / 2 ^ n

/-- Bitwise complement of a 32-bit word. -/
def not32 (x : Nat) : Nat := w32 - 1 - x % w32

/-- The Σ0 function of FIPS 180-4. -/
def bigSigma0 (x : Nat) : Nat := rotr 2 x ^^^ rotr 13 x ^^^ rotr 22 x

/-- The Σ1 function of FIPS 180-4. -/
def bigSigma1 (x : Nat) : Nat := rotr 6 x ^^^ rotr 11 x ^^^ rotr 25 x

/-- The σ0 message-schedule function of FIPS 180-4. -/
def smallSigma0 (x : Nat) : Nat := rotr 7 x ^^^ rotr 18 x ^^^ shr 3 x

/-- The σ1 message-schedule function of FIPS 180-4. -/
def smallSigma1 (x : Nat) : Nat := rotr 17 x ^^^ rotr 19 x ^^^ shr 10 x

/-- The Ch choice function of FIPS 180-4. -/
def chF (x y z : Nat) : Nat := x &&& y ^^^ not32 x &&& z

/-- The Maj majority function of FIPS 180-4. -/
def majF (x y z : Nat) : Nat := x &&& y ^^^ x &&& z ^^^ y &&& z

/-- The 64 round constants of SHA-256 (FIPS 180-4 section 4.2.2),
written in decimal. -/
def k256 : List Nat :=
  [1116352408, 1899447441, 3049323471, 3921009573,
   961987163, 1508970993, 2453635748, 2870763221,
   3624381080, 310598401, 607225278, 1426881987,
   1925078388, 2162078206, 2614888103, 3248222580,
   3835390401, 4022224774, 264347078, 604807628,
   770255983, 1249150122, 1555081692, 1996064986,
   2554220882, 2821834349, 2952996808, 3210313671,
   3336571891, 3584528711, 113926993, 338241895,
   666307205, 773529912, 1294757372, 1396182291,
   1695183700, 1986661051, 2177026350, 2456956037,
   2730485921, 2820302411, 3259730800, 3345764771,
   3516065817, 3600352804, 4094571909, 275423344,
   430227734, 506948616, 659060556, 883997877,
   958139571, 1322822218, 1537002063, 1747873779,
   1955562222, 2024104815, 2227730452, 2361852424,
   2428436474, 2756734187, 3204031479, 3329325298]

/-- The eight working variables of the SHA-256 compression function. -/
structure Hash8 where
  a : Nat
  b : Nat
  c : Nat
  d : Nat
  e : Nat
  f : Nat
  g : Nat
  h : Nat
deriving DecidableEq, Repr

/-- The SHA-256 initial hash value (FIPS 180-4 section 5.3.3),
written in decimal. -/
def sha256Init : Hash8 :=
  ⟨1779033703, 3144134277, 1013904242, 2773480762,
   1359893119, 2600822924, 528734635, 1541459225⟩

/-- One round of the compression function; `kw` is the round constant
already added to the schedule word. -/
def sha256Round (s : Hash8) (kw : Nat) : Hash8 :=
  let t1 := add32 s.h (add32 (bigSigma1 s.e) (add32 (chF s.e s.f s.g) kw))
  let t2 := add32 (bigSigma0 s.a) (majF s.a s.b s.c)
  ⟨add32 t1 t2, s.a, s.b, s.c, add32 s.d t1, s.e, s.f, s.g⟩

/-- Message-schedule extension: the list holds the schedule so far,
most recent word first; each step prepends
W[t] = σ1(W[t-2]) + W[t-7] + σ0(W[t-15]) + W[t-16]. -/
def extendW (rw : List Nat) : Nat → List Nat
  | 0 => rw
  | k + 1 =>
    let nw := add32 (smallSigma1 (rw.getD 1 0))
      (add32 (rw.getD 6 0) (add32 (smallSigma0 (rw.getD 14 0)) (rw.getD 15 0)))
    extendW (nw :: rw) k

/-- The 64-word message schedule of a 16-word block. -/
def schedule (ws : List Nat) : List Nat :=
  (extendW ws.reverse 48).reverse

/-- Compression of one 16-word block into the hash state. -/
def compressBlock (s : Hash8) (ws : List Nat) : Hash8 :=
  let t := (k256.zip (schedule ws)).foldl
    (fun st p => sha256Round st (add32 p.1 p.2)) s
  ⟨add32 s.a t.a, add32 s.b t.b, add32 s.c t.c, add32 s.d t.d,
   add32 s.e t.e, add32 s.f t.f, add32 s.g t.g, add32 s.h t.h⟩

/-- Big-endian packing of bytes into 32-bit words. -/
def bytesToWords : List Nat → List Nat
  | b0 :: b1 :: b2 :: b3 :: rest =>
    (((b0 * 256 + b1) * 256 + b2) * 256 + b3) :: bytesToWords rest
  | _ => []

def toBlocksGo : Nat → List Nat → List (List Nat)
  | _, [] => []
  | 0, _ :: _ => []
  | fuel + 1, x :: xs => (x :: xs).take 64 :: toBlocksGo fuel ((x :: xs).drop 64)

/-- Split a byte list into 64-byte blocks; the length of the list
bounds the number of blocks and serves as structural fuel. -/
def toBlocks (l : List Nat) : List (List Nat) := toBlocksGo l.length l

/-- Big-endian 8-byte encoding of a 64-bit length value. -/
def lenBytes64 (n : Nat) : List Nat :=
  [n / 2 ^ 56 % 256, n / 2 ^ 48 % 256, n / 2 ^ 40 % 256, n / 2 ^ 32 % 256,
   n / 2 ^ 24 % 256, n / 2 ^ 16 % 256, n / 2 ^ 8 % 256, n % 256]

/-- SHA-256 padding: append the 0x80 byte, zeros to 56 mod 64, and the
bit length as 8 big-endian bytes. -/
def padMessage (msg : List Nat) : List Nat :=
  msg ++ 128 :: List.replicate ((119 - msg.length % 64) % 64) 0
    ++ lenBytes64 (8 * msg.length % 2 ^ 64)

/-- Big-endian bytes of one 32-bit word. -/
def wordBytes (x : Nat) : List Nat :=
  [x / 2 ^ 24 % 256, x / 2 ^ 16 % 256, x / 2 ^ 8 % 256, x % 256]

/-- The 32 digest bytes of a final hash state. -/
def digestBytes (s : Hash8) : List Nat :=
  wordBytes s.a ++ wordBytes s.b ++ wordBytes s.c ++ wordBytes s.d ++
  wordBytes s.e ++ wordBytes s.f ++ wordBytes s.g ++ wordBytes s.h

/-- SHA-256 of a byte list. -/
def sha256 (msg : List Nat) : List Nat :=
  digestBytes ((toBlocks (padMessage msg)).foldl
    (fun st b => compressBlock st (bytesToWords b)) sha256Init)

/-- The sixteen lowercase hexadecimal digit characters, as used by
`hex.EncodeToString`. -/
def hexDigits : List Char := "0123456789abcdef".data

/-- The hex digit character of a value below 16. -/
def hexDigit (n : Nat) : Char := hexDigits.getD n '0'

/-- The two lowercase hex characters of one byte, high nibble first. -/
def byteHex (b : Nat) : List Char := [hexDigit (b / 16 % 16), hexDigit (b % 16)]

/-- Lowercase hex encoding of a byte list, as `hex.EncodeToString`. -/
def hexLower (bs : List Nat) : String := ⟨(bs.map byteHex).flatten⟩

/-- The UTF-8 bytes of one character, by code point range. -/
def utf8Bytes (c : Char) : List Nat :=
  let n := c.toNat
  if n < 128 then [n]
  else if n < 2048 then [192 + n / 64, 128 + n % 64]
  else if n < 65536 then [224 + n / 4096, 128 + n / 64 % 64, 128 + n % 64]
  else [240 + n / 262144, 128 + n / 4096 % 64, 128 + n / 64 % 64, 128 + n % 64]

/-- The bytes of a string, as the Go conversion `[]byte(s)` (UTF-8). -/
def strBytes (s : String) : List Nat :=
  s.data.flatMap utf8Bytes

/-- The digest component of the default trace id: the lowercase hex
SHA-256 of the token bytes. -/
def sha256HexOf (token : String) : String := hexLower (sha256 (strBytes token))

/-- `defaultTraceIDGenerator` (trace.go lines 60-63). -/
def defaultTraceIDGenerator (userID token : String) : String :=
  userID ++ ":" ++ sha256HexOf token

/-! ## Sample inputs -/

/-- A concrete record for witnesses and counterexamples. -/
def sampleStep : Step :=
  { traceID := "u:abc", userID := "u", path := "/q", method := "GET",
    statusCode := 200, latencyMs := 1, ip := "127.0.0.1",
    userAgent := "curl", createdAt := 1700000000 }

/-- A concrete 1200-record batch, the chunking example of the spec. -/
def logs1200 : List Step := List.replicate 1200 sampleStep

/-- A concrete spec-surface configuration asking for 5 retry attempts
and chunk size 100 (the other fields are the defaults of the example
program in main.go). -/
def specCfg5 : SpecConfig :=
  ⟨1000, 100, 5000000000, 10, 5, 3600000000000, 5, 100⟩

/-- The number of records currently buffered in a channel. -/
def chanLen : Chan α → Nat
  | .nil => 0
  | .buffered _ q => q.length

/-! ## Helper lemmas on chunking -/

theorem chunksGo_flatten (bs : Nat) (h : 0 < bs) :
    ∀ (fuel : Nat) (l : List Step), l.length ≤ fuel → (chunksGo bs fuel l).flatten = l := by
  intro fuel
  induction fuel with
  | zero =>
    intro l hl
    have hnil : l = [] := List.length_eq_zero.mp (Nat.le_zero.mp hl)
    subst hnil
    rfl
  | succ fuel ih =>
    intro l hl
    cases l with
    | nil => rfl
    | cons x xs =>
      show ((x :: xs).take bs :: chunksGo bs fuel ((x :: xs).drop bs)).flatten = x :: xs
      rw [List.flatten_cons,
        ih ((x :: xs).drop bs)
          (by
            simp only [List.length_drop, List.length_cons]
            simp only [List.length_cons] at hl
            omega),
        List.take_append_drop]

theorem chunksOf_flatten (bs : Nat) (l : List Step) (h : 0 < bs) :
    (chunksOf bs l).flatten = l := by
  unfold chunksOf
  rw [if_neg (Nat.pos_iff_ne_zero.mp h)]
  exact chunksGo_flatten bs h l.length l le_rfl

theorem chunksOf_flatten_min (l : List Step) :
    (chunksOf (min 500 l.length) l).flatten = l := by
  cases l with
  | nil => rfl
  | cons x xs =>
    exact chunksOf_flatten _ _ (by simp only [List.length_cons, Nat.lt_min]; omega)

theorem chunksGo_mem_length (bs : Nat) :
    ∀ (fuel : Nat) (l : List Step), ∀ c ∈ chunksGo bs fuel l, c.length ≤ bs := by
  intro fuel
  induction fuel with
  | zero =>
    intro l c hc
    cases l <;> simp [chunksGo] at hc
  | succ fuel ih =>
    intro l c hc
    cases l with
    | nil => simp [chunksGo] at hc
    | cons x xs =>
      simp only [chunksGo, List.mem_cons] at hc
      rcases hc with rfl | hc
      · rw [List.length_take]
        exact Nat.min_le_left bs (x :: xs).length
      · exact ih _ _ hc

theorem chunksOf_min500_le (l : List Step) :
    ∀ c ∈ chunksOf (min 500 l.length) l, c.length ≤ 500 := by
  intro c hc
  unfold chunksOf at hc
  split at hc
  · simp at hc
  · exact le_trans (chunksGo_mem_length _ _ _ _ hc) (Nat.min_le_left _ _)

theorem chunksGo_map_length (bs : Nat) :
    ∀ (fuel : Nat) (l : List Step),
      (chunksGo bs fuel l).map List.length = lenChunksGo bs fuel l.length := by
  intro fuel
  induction fuel with
  | zero => intro l; cases l <;> rfl
  | succ fuel ih =>
    intro l
    cases l with
    | nil => rfl
    | cons x xs =>
      simp only [chunksGo, List.map_cons, List.length_cons, lenChunksGo]
      rw [List.length_take, ih]
      simp only [List.length_drop, List.length_cons]

theorem chunksOf_map_length_1200 (l : List Step) (hl : l.length = 1200) :
    (chunksOf (min 500 l.length) l).map List.length = [500, 500, 200] := by
  unfold chunksOf
  rw [hl, if_neg (by decide), chunksGo_map_length, hl]
  decide

/-! ## Helper lemmas on the write loop and retry loop -/

theorem runChunks_fail (w : Nat → WriteOut) :
    ∀ (cs : List (List Step)) (k i : Nat), k < cs.length →
      (∀ j, j < k → w (i + j) = .ok) → w (i + k) = .fail →
      runChunks w cs i = ⟨cs.take k, .failed⟩ := by
  intro cs
  induction cs with
  | nil => intro k i hk _ _; simp at hk
  | cons c cs ih =>
    intro k i hk hok hfail
    cases k with
    | zero =>
      have h0 : w i = .fail := by rwa [Nat.add_zero] at hfail
      simp [runChunks, h0]
    | succ k =>
      have h0 : w i = .ok := by simpa using hok 0 (Nat.succ_pos k)
      have hrec : runChunks w cs (i + 1) = ⟨cs.take k, .failed⟩ := by
        refine ih k (i + 1) (by simpa using hk) ?_ ?_
        · intro j hj
          have e : i + 1 + j = i + (j + 1) := by omega
          rw [e]
          exact hok (j + 1) (by omega)
        · have e : i + 1 + k = i + (k + 1) := by omega
          rw [e]
          exact hfail
      simp [runChunks, h0, hrec]

theorem flushRetryLoop_succ (w : Nat → Nat → WriteOut) (logs : List Step)
    (attempt fuel : Nat) :
    flushRetryLoop w logs attempt (fuel + 1) =
      match (flushWithRetry (w attempt) logs).result with
      | .panicked => ⟨[flushWithRetry (w attempt) logs], [], .panicEscaped⟩
      | .success => ⟨[flushWithRetry (w attempt) logs], [], .successLogged logs.length⟩
      | .failed =>
        if attempt = maxRetries then
          ⟨[flushWithRetry (w attempt) logs], [], .failureLogged⟩
        else
          ⟨flushWithRetry (w attempt) logs ::
              (flushRetryLoop w logs (attempt + 1) fuel).attempts,
            attempt * secondNs :: (flushRetryLoop w logs (attempt + 1) fuel).delays,
            (flushRetryLoop w logs (attempt + 1) fuel).outcome⟩ := rfl

theorem flushRetryLoop_fail_step (w : Nat → Nat → WriteOut) (logs : List Step)
    (attempt fuel : Nat) (hfuel : 0 < fuel)
    (h : (flushWithRetry (w attempt) logs).result = .failed)
    (hne : attempt ≠ maxRetries) :
    flushRetryLoop w logs attempt fuel =
      ⟨flushWithRetry (w attempt) logs ::
          (flushRetryLoop w logs (attempt + 1) (fuel - 1)).attempts,
        attempt * secondNs :: (flushRetryLoop w logs (attempt + 1) (fuel - 1)).delays,
        (flushRetryLoop w logs (attempt + 1) (fuel - 1)).outcome⟩ := by
  obtain ⟨f, rfl⟩ : ∃ f, fuel = f + 1 := ⟨fuel - 1, by omega⟩
  rw [flushRetryLoop_succ, h]
  simp [hne]

theorem flushRetryLoop_fail_last (w : Nat → Nat → WriteOut) (logs : List Step)
    (attempt fuel : Nat) (hfuel : 0 < fuel) (ha : attempt = maxRetries)
    (h : (flushWithRetry (w attempt) logs).result = .failed) :
    flushRetryLoop w logs attempt fuel =
      ⟨[flushWithRetry (w attempt) logs], [], .failureLogged⟩ := by
  obtain ⟨f, rfl⟩ : ∃ f, fuel = f + 1 := ⟨fuel - 1, by omega⟩
  rw [flushRetryLoop_succ, h]
  simp [ha]

theorem flushRetryLoop_panic_step (w : Nat → Nat → WriteOut) (logs : List Step)
    (attempt fuel : Nat) (hfuel : 0 < fuel)
    (h : (flushWithRetry (w attempt) logs).result = .panicked) :
    flushRetryLoop w logs attempt fuel =
      ⟨[flushWithRetry (w attempt) logs], [], .panicEscaped⟩ := by
  obtain ⟨f, rfl⟩ : ∃ f, fuel = f + 1 := ⟨fuel - 1, by omega⟩
  rw [flushRetryLoop_succ, h]

theorem flushGoroutine_allFail (w : Nat → Nat → WriteOut) (logs : List Step)
    (hfail : ∀ a, (flushWithRetry (w a) logs).result = .failed) :
    flushGoroutine w logs =
      ⟨[flushWithRetry (w 1) logs, flushWithRetry (w 2) logs,
          flushWithRetry (w 3) logs],
        [secondNs, 2 * secondNs], .failureLogged⟩ := by
  have e1 := flushRetryLoop_fail_step w logs 1 maxRetries (by decide) (hfail 1) (by decide)
  have e2 := flushRetryLoop_fail_step w logs (1 + 1) (maxRetries - 1) (by decide)
    (hfail (1 + 1)) (by decide)
  have e3 := flushRetryLoop_fail_last w logs (1 + 1 + 1) (maxRetries - 1 - 1) (by decide)
    (by decide) (hfail (1 + 1 + 1))
  simp only [flushGoroutine, e1, e2, e3]
  rfl

theorem flushGoroutine_no_escape (w : Nat → Nat → WriteOut) (logs : List Step) :
    (flushGoroutine w logs).outcome ≠ .panicEscaped := by
  unfold flushGoroutine
  rcases hout : (flushRetryLoop w logs 1 maxRetries).outcome with n | _ | _ | _ | _ <;>
    simp [hout]

/-! ## Helper lemmas on hex encoding and the digest -/

theorem hexDigit_mem (m : Nat) : hexDigit m ∈ hexDigits := by
  rcases Nat.lt_or_ge m 16 with h | h
  · interval_cases m <;> decide
  · unfold hexDigit
    rw [List.getD_eq_default]
    · decide
    · simpa [hexDigits] using h

theorem hexLower_data_length (bs : List Nat) :
    ((bs.map byteHex).flatten).length = 2 * bs.length := by
  induction bs with
  | nil => rfl
  | cons b bs ih =>
    simp only [List.map_cons, List.flatten_cons, List.length_append, ih,
      List.length_cons, byteHex, List.length_nil]
    omega

theorem hexLower_length (bs : List Nat) : (hexLower bs).length = 2 * bs.length :=
  hexLower_data_length bs

theorem sha256_length (msg : List Nat) : (sha256 msg).length = 32 := rfl

theorem hexLower_mem (bs : List Nat) : ∀ ch ∈ (hexLower bs).data, ch ∈ hexDigits := by
  intro ch hch
  have hflat : ch ∈ (bs.map byteHex).flatten := hch
  rcases List.mem_flatten.mp hflat with ⟨l, hl, hchl⟩
  rcases List.mem_map.mp hl with ⟨b, _, rfl⟩
  simp only [byteHex, List.mem_cons, List.not_mem_nil, or_false] at hchl
  rcases hchl with rfl | rfl
  · exact hexDigit_mem _
  · exact hexDigit_mem _

set_option maxRecDepth 10000 in
example : sha256HexOf "abc"
    = "ba7816bf8f01cfea414140de5dae2223b00361a396177a9cb410ff61f20015ad" := by
  decide

/-! ## The claims -/

/-- C1 counterexample: with BatchSize 2, the worker receives one
record and then observes the buffer channel closed.  The in-progress
batch `[sampleStep]` is non-empty, `startWorker` returns having
spawned a flush task for exactly it — but under the legal schedule in
which no spawned goroutine has run by the time the return is observed
(Go guarantees nothing stronger), the write of those records has not
completed when `startWorker` returns.  This refutes "the write of
those records completes before startWorker returns": `flush` hands the
batch to a `go func` and returns immediately (trace.go line 219). -/
theorem C1_counterexample :
    (runWorker 2 [] [.recv sampleStep, .closed]).returned = true ∧
    (runWorker 2 [] [.recv sampleStep, .closed]).spawned = [[sampleStep]] ∧
    ¬ (∀ k, legalSchedule (runWorker 2 [] [.recv sampleStep, .closed]) k →
        [sampleStep] ∈ completedUnder (runWorker 2 [] [.recv sampleStep, .closed]) k) := by
  refine ⟨by decide, by decide, fun hall => ?_⟩
  have h0 := hall 0 (by decide)
  simp [completedUnder] at h0

/-- C1 (amended): on shutdown — the buffer channel observed closed —
for every non-empty in-progress batch the worker synchronously invokes
`flush` on exactly those records before `startWorker` returns, even if
no timer tick occurred: the run records a spawned write task carrying
exactly that batch, and the worker returns.  The write itself runs in
the spawned task and is not awaited by `startWorker`. -/
theorem C1_shutdown_spawns_flush (batchSize : Nat) (buf : List Step)
    (es : List WEvent) (h : buf ≠ []) :
    (runWorker batchSize buf (.closed :: es)).spawned = [buf] ∧
    (runWorker batchSize buf (.closed :: es)).returned = true := by
  constructor
  · show flushSpawn buf = [buf]
    unfold flushSpawn
    rw [if_neg (by simpa [List.length_eq_zero] using h)]
  · rfl

theorem C1_shutdown_spawns_flush_witness :
    (runWorker 2 [sampleStep] [.closed]).spawned = [[sampleStep]] ∧
    (runWorker 2 [sampleStep] [.closed]).returned = true :=
  C1_shutdown_spawns_flush 2 [sampleStep] [] (by decide)

/-- C2 (code bug, trace.go lines 200-209 together with 219 and 254):
with BatchSize 1 the worker receives a record, hands the batch slice
(arena 0, length 1) to the spawned flush task, and reslices with
`buf = buf[:0]`, which keeps the same backing arena; appending the
next received record writes in place into cell (0, 0) — a cell the
flush task reads.  The storages are not disjoint: the claimed
ownership transfer is violated and worker and flush task race on the
shared backing array. -/
theorem C2_alias_at_failing_input :
    (sRecv 1 (sInit 1)).handed = some ⟨0, 1, 2⟩ ∧
    (sRecv 1 (sRecv 1 (sInit 1)).state).wrote ∈ cellsOf ⟨0, 1, 2⟩ := by
  decide

/-- C3: for every batch on which every `flushWithRetry` attempt fails,
the write routine is invoked exactly `maxRetries = 3` times; the
delays slept are [1 second, 2 seconds] — the delay before attempt
n + 1 is n times the one-second base, hence strictly increasing — and
after the last attempt the batch is dropped with the failure logged,
never raised to a caller: the goroutine outcome is `failureLogged`
and the worker loop (`runWorker`) takes no input from task outcomes. -/
theorem C3_retry_policy (w : Nat → Nat → WriteOut) (logs : List Step)
    (hfail : ∀ a, (flushWithRetry (w a) logs).result = .failed) :
    maxRetries = 3 ∧
    (flushGoroutine w logs).attempts.length = 3 ∧
    (flushGoroutine w logs).delays = [1 * secondNs, 2 * secondNs] ∧
    List.Chain' (· < ·) (flushGoroutine w logs).delays ∧
    (flushGoroutine w logs).outcome = .failureLogged := by
  rw [flushGoroutine_allFail w logs hfail]
  refine ⟨rfl, rfl, by rw [one_mul], ?_, rfl⟩
  show List.Chain' (· < ·) [secondNs, 2 * secondNs]
  refine List.chain'_cons.mpr ⟨?_, List.chain'_singleton _⟩
  show secondNs < 2 * secondNs
  decide

theorem C3_retry_policy_witness :
    maxRetries = 3 ∧
    (flushGoroutine (fun _ _ => .fail) [sampleStep]).attempts.length = 3 ∧
    (flushGoroutine (fun _ _ => .fail) [sampleStep]).delays
      = [1 * secondNs, 2 * secondNs] ∧
    List.Chain' (· < ·) (flushGoroutine (fun _ _ => .fail) [sampleStep]).delays ∧
    (flushGoroutine (fun _ _ => .fail) [sampleStep]).outcome = .failureLogged :=
  C3_retry_policy (fun _ _ => .fail) [sampleStep]
    (fun _ => by
      show (flushWithRetry (fun _ => WriteOut.fail) [sampleStep]).result = .failed
      decide)

/-- C4: a single flush attempt writes the batch as consecutive chunks
of size at most MaxChunkSize = 500 whose in-order concatenation equals
the batch; a 1200-record batch yields chunk sizes 500, 500, 200; and
if the write of chunk k fails after the first k chunks succeeded, the
attempt stops there with exactly the first k chunks written and an
error returned, leaving the remaining chunks unwritten — a retry
re-runs `flushWithRetry` from the first chunk. -/
theorem C4_chunking (w : Nat → WriteOut) (logs : List Step) (k : Nat)
    (hk : k < (chunksOf (min 500 logs.length) logs).length)
    (hok : ∀ j, j < k → w j = .ok) (hfail : w k = .fail) :
    (∀ c ∈ chunksOf (min 500 logs.length) logs, c.length ≤ 500) ∧
    (chunksOf (min 500 logs.length) logs).flatten = logs ∧
    (logs.length = 1200 →
      (chunksOf (min 500 logs.length) logs).map List.length = [500, 500, 200]) ∧
    (flushWithRetry w logs).written = (chunksOf (min 500 logs.length) logs).take k ∧
    (flushWithRetry w logs).result = .failed := by
  have h := runChunks_fail w (chunksOf (min 500 logs.length) logs) k 0 hk
    (fun j hj => by rw [Nat.zero_add]; exact hok j hj)
    (by rw [Nat.zero_add]; exact hfail)
  exact ⟨chunksOf_min500_le logs, chunksOf_flatten_min logs,
    fun hl => chunksOf_map_length_1200 logs hl,
    by rw [flushWithRetry, h], by rw [flushWithRetry, h]⟩

set_option maxRecDepth 100000 in
theorem C4_chunking_witness :
    (∀ c ∈ chunksOf (min 500 logs1200.length) logs1200, c.length ≤ 500) ∧
    (chunksOf (min 500 logs1200.length) logs1200).flatten = logs1200 ∧
    (logs1200.length = 1200 →
      (chunksOf (min 500 logs1200.length) logs1200).map List.length
        = [500, 500, 200]) ∧
    (flushWithRetry (fun j => if j = 1 then .fail else .ok) logs1200).written
      = (chunksOf (min 500 logs1200.length) logs1200).take 1 ∧
    (flushWithRetry (fun j => if j = 1 then .fail else .ok) logs1200).result
      = .failed :=
  C4_chunking (fun j => if j = 1 then .fail else .ok) logs1200 1
    (by decide) (by decide) (by decide)

/-- C5: the middleware enqueue — the select with a default branch — is
a total step that never blocks the caller: with room in the buffer the
record is appended (the queue grows by one, still within capacity);
with the queue at capacity the record is dropped silently, the channel
unchanged and no error value surfaced (the step returns only the
channel and a drop flag); the buffered count never exceeds the
capacity; and the buffer `Start` creates is empty with capacity
`cfg.BufferSize`, so at most BufferSize records are ever buffered. -/
theorem C5_enqueue_nonblocking (cap : Nat) (q : List Step) (s : Step)
    (hq : q.length ≤ cap) :
    (q.length < cap →
      trySend (.buffered cap q) s = (.buffered cap (q ++ [s]), true)) ∧
    (q.length = cap →
      trySend (.buffered cap q) s = (.buffered cap q, false)) ∧
    chanLen (trySend (Chan.buffered cap q) s).1 ≤ cap ∧
    (∀ cfg : Config, startBuffer cfg = .buffered cfg.bufferSize [] ∧
      chanLen (startBuffer cfg) = 0) := by
  refine ⟨fun hlt => ?_, fun heq => ?_, ?_, fun cfg => ⟨rfl, rfl⟩⟩
  · simp only [trySend]
    rw [if_pos hlt]
  · simp only [trySend]
    rw [if_neg (by omega)]
  · simp only [trySend]
    by_cases hlt : q.length < cap
    · rw [if_pos hlt]
      show (q ++ [s]).length ≤ cap
      rw [List.length_append]
      simpa using hlt
    · rw [if_neg hlt]
      exact hq

theorem C5_enqueue_nonblocking_witness :
    (([sampleStep] : List Step).length < 2 →
      trySend (.buffered 2 [sampleStep]) sampleStep
        = (.buffered 2 [sampleStep, sampleStep], true)) ∧
    (([sampleStep] : List Step).length = 2 →
      trySend (.buffered 2 [sampleStep]) sampleStep
        = (.buffered 2 [sampleStep], false)) ∧
    chanLen (trySend (Chan.buffered 2 [sampleStep]) sampleStep).1 ≤ 2 ∧
    (∀ cfg : Config, startBuffer cfg = .buffered cfg.bufferSize [] ∧
      chanLen (startBuffer cfg) = 0) := by
  have h := C5_enqueue_nonblocking 2 [sampleStep] sampleStep (by decide)
  exact ⟨fun _ => by rw [h.1 (by decide)]; rfl, h.2.1, h.2.2.1, h.2.2.2⟩

/-- C6 counterexample: the writer does not take retry attempts or
chunk size from any configuration.  Under the spec-surface
configuration `specCfg5`, which asks for 5 retry attempts and chunk
size 100, a persistently failing one-record batch is attempted exactly
3 times, not 5, and the chunks of a 1200-record batch have sizes
500, 500, 200, not at most 100: the Go `Config` struct (trace.go
lines 29-37) carries no such fields — `maxRetries := 3` (line 227)
and the 500 of `min(500, len(logs))` (line 248) are hardcoded. -/
theorem C6_counterexample :
    (flushGoroutine (fun _ _ => .fail) [sampleStep]).attempts.length
      ≠ specCfg5.maxRetries ∧
    ¬ (∀ c ∈ chunksOf (min 500 logs1200.length) logs1200,
        c.length ≤ specCfg5.chunkSize) := by
  constructor
  · decide
  · intro hall
    have hmem : (500 : Nat)
        ∈ (chunksOf (min 500 logs1200.length) logs1200).map List.length := by
      rw [chunksOf_map_length_1200 logs1200
        (by show (List.replicate 1200 sampleStep).length = 1200; rw [List.length_replicate])]
      decide
    rcases List.mem_map.mp hmem with ⟨c, hc, hlen⟩
    have hle := hall c hc
    rw [hlen] at hle
    exact absurd hle (by decide)

/-- C6 (amended): the tunables fixed at startup are queue capacity,
batch size, flush interval and the connection-pool settings — `Start`
passes exactly `cfg.FlushInterval` and `cfg.BatchSize` to the worker
and sizes the buffer by `cfg.BufferSize` — while the writer uses
constants compiled into the code, identical for every configuration:
3 retry attempts per persistently failing flush and chunks of at most
500 records. -/
theorem C6_writer_constants (cfg : Config) (w : Nat → Nat → WriteOut)
    (logs : List Step)
    (hfail : ∀ a, (flushWithRetry (w a) logs).result = .failed) :
    startWorkerArgs cfg = (cfg.flushIntervalNs, cfg.batchSize) ∧
    startBuffer cfg = .buffered cfg.bufferSize [] ∧
    maxRetries = 3 ∧
    (flushGoroutine w logs).attempts.length = 3 ∧
    (∀ c ∈ chunksOf (min 500 logs.length) logs, c.length ≤ 500) := by
  refine ⟨rfl, rfl, rfl, ?_, chunksOf_min500_le logs⟩
  rw [flushGoroutine_allFail w logs hfail]
  rfl

theorem C6_writer_constants_witness :
    startWorkerArgs ⟨5000000000, 100, 1000, 10, 5, 3600000000000⟩
      = ((⟨5000000000, 100, 1000, 10, 5, 3600000000000⟩ : Config).flushIntervalNs,
        (⟨5000000000, 100, 1000, 10, 5, 3600000000000⟩ : Config).batchSize) ∧
    startBuffer ⟨5000000000, 100, 1000, 10, 5, 3600000000000⟩
      = .buffered (⟨5000000000, 100, 1000, 10, 5, 3600000000000⟩ : Config).bufferSize [] ∧
    maxRetries = 3 ∧
    (flushGoroutine (fun _ _ => .fail) [sampleStep]).attempts.length = 3 ∧
    (∀ c ∈ chunksOf (min 500 ([sampleStep] : List Step).length) [sampleStep],
      c.length ≤ 500) :=
  C6_writer_constants ⟨5000000000, 100, 1000, 10, 5, 3600000000000⟩
    (fun _ _ => .fail) [sampleStep]
    (fun _ => by
      show (flushWithRetry (fun _ => WriteOut.fail) [sampleStep]).result = .failed
      decide)

/-- C7: a panic raised anywhere inside a flush task write path is
caught within that task.  If the attempts before `a` fail and attempt
`a ≤ maxRetries` panics, the goroutine ends with the panic logged
(`panicLogged`), the retry loop abandoned at attempt `a` — exactly `a`
invocations, no retry after the fault — no spawned task under any
oracle lets a panic escape its deferred recover, and the worker
component of the system is the plain worker run, independent of the
oracle, so the loop continues processing subsequent batches. -/
theorem C7_panic_contained (w : Nat → Nat → WriteOut) (logs : List Step) (a : Nat)
    (ha1 : 1 ≤ a) (ha3 : a ≤ maxRetries)
    (hpanic : (flushWithRetry (w a) logs).result = .panicked)
    (hprev : ∀ b, b < a → 1 ≤ b → (flushWithRetry (w b) logs).result = .failed) :
    (flushGoroutine w logs).outcome = .panicLogged ∧
    (flushGoroutine w logs).attempts.length = a ∧
    (∀ (w2 : Nat → Nat → WriteOut) bs buf es,
      ∀ t ∈ (systemRun w2 bs buf es).2, t.outcome ≠ .panicEscaped) ∧
    (∀ bs buf es, (systemRun w bs buf es).1 = runWorker bs buf es) := by
  have hesc : ∀ (w2 : Nat → Nat → WriteOut) bs buf es,
      ∀ t ∈ (systemRun w2 bs buf es).2, t.outcome ≠ .panicEscaped := by
    intro w2 bs buf es t ht
    simp only [systemRun] at ht
    rcases List.mem_map.mp ht with ⟨b, _, rfl⟩
    exact flushGoroutine_no_escape w2 b
  have ha3' : a ≤ 3 := ha3
  have hg : (flushGoroutine w logs).outcome = .panicLogged ∧
      (flushGoroutine w logs).attempts.length = a := by
    interval_cases a
    · have e1 := flushRetryLoop_panic_step w logs 1 maxRetries (by decide) hpanic
      have hgv : flushGoroutine w logs
          = ⟨[flushWithRetry (w 1) logs], [], .panicLogged⟩ := by
        simp only [flushGoroutine, e1]
      rw [hgv]
      exact ⟨rfl, rfl⟩
    · have e1 := flushRetryLoop_fail_step w logs 1 maxRetries (by decide)
        (hprev 1 (by omega) (by omega)) (by decide)
      have e2 := flushRetryLoop_panic_step w logs (1 + 1) (maxRetries - 1)
        (by decide) hpanic
      have hgv : flushGoroutine w logs
          = ⟨[flushWithRetry (w 1) logs, flushWithRetry (w (1 + 1)) logs],
              [1 * secondNs], .panicLogged⟩ := by
        simp only [flushGoroutine, e1, e2]
      rw [hgv]
      exact ⟨rfl, rfl⟩
    · have e1 := flushRetryLoop_fail_step w logs 1 maxRetries (by decide)
        (hprev 1 (by omega) (by omega)) (by decide)
      have e2 := flushRetryLoop_fail_step w logs (1 + 1) (maxRetries - 1)
        (by decide) (hprev 2 (by omega) (by omega)) (by decide)
      have e3 := flushRetryLoop_panic_step w logs (1 + 1 + 1) (maxRetries - 1 - 1)
        (by decide) hpanic
      have hgv : flushGoroutine w logs
          = ⟨[flushWithRetry (w 1) logs, flushWithRetry (w (1 + 1)) logs,
                flushWithRetry (w (1 + 1 + 1)) logs],
              [1 * secondNs, (1 + 1) * secondNs], .panicLogged⟩ := by
        simp only [flushGoroutine, e1, e2, e3]
      rw [hgv]
      exact ⟨rfl, rfl⟩
  exact ⟨hg.1, hg.2, hesc, fun bs buf es => rfl⟩

theorem C7_panic_contained_witness :
    (flushGoroutine (fun a _ => if a = 2 then .panicked else .fail)
        [sampleStep]).outcome = .panicLogged ∧
    (flushGoroutine (fun a _ => if a = 2 then .panicked else .fail)
        [sampleStep]).attempts.length = 2 ∧
    (∀ (w2 : Nat → Nat → WriteOut) bs buf es,
      ∀ t ∈ (systemRun w2 bs buf es).2, t.outcome ≠ .panicEscaped) ∧
    (∀ bs buf es,
      (systemRun (fun a _ => if a = 2 then .panicked else .fail) bs buf es).1
        = runWorker bs buf es) :=
  C7_panic_contained (fun a _ => if a = 2 then .panicked else .fail)
    [sampleStep] 2 (by decide) (by decide)
    (by
      show (flushWithRetry (fun _ => if 2 = 2 then WriteOut.panicked else .fail)
        [sampleStep]).result = .panicked
      decide)
    (by decide)

/-- C8: on receiving a record the worker appends it to the current
batch; if the batch length then reaches BatchSize, exactly the
accumulated records are handed to a flush and the batch resets to
empty, with no tick event involved; in particular with BatchSize 3,
receiving three records yields exactly one spawned flush holding those
three records in order, the batch left empty and the worker still
running. -/
theorem C8_batch_size_trigger (batchSize : Nat) (buf : List Step) (s : Step)
    (es : List WEvent) (h : batchSize ≤ buf.length + 1) :
    runWorker batchSize buf (.recv s :: es) =
      ⟨(buf ++ [s]) :: (runWorker batchSize [] es).spawned,
        (runWorker batchSize [] es).buf, (runWorker batchSize [] es).returned⟩ ∧
    (∀ s1 s2 s3 : Step,
      runWorker 3 [] [.recv s1, .recv s2, .recv s3] = ⟨[[s1, s2, s3]], [], false⟩) := by
  constructor
  · simp only [runWorker]
    rw [if_pos (show batchSize ≤ (buf ++ [s]).length by
      rw [List.length_append, List.length_cons, List.length_nil]
      exact h)]
    rw [show flushSpawn (buf ++ [s]) = [buf ++ [s]] from by
      unfold flushSpawn
      rw [if_neg (by rw [List.length_append]; simp)]]
    rfl
  · intro s1 s2 s3
    simp [runWorker, flushSpawn]

theorem C8_batch_size_trigger_witness :
    runWorker 1 [] [.recv sampleStep] =
      ⟨([] ++ [sampleStep]) :: (runWorker 1 [] []).spawned,
        (runWorker 1 [] []).buf, (runWorker 1 [] []).returned⟩ ∧
    (∀ s1 s2 s3 : Step,
      runWorker 3 [] [.recv s1, .recv s2, .recv s3] = ⟨[[s1, s2, s3]], [], false⟩) :=
  C8_batch_size_trigger 1 [] sampleStep [] (by decide)

/-- C9 (implicit behavior of trace.go lines 100, 174-179): before
`Start` has ever run, the package-level `buffer` is the nil channel;
a send on the nil channel is never ready, so the
`select { case buffer <- step: default: }` of the middleware takes its
default branch: the record is silently dropped, nothing blocks and
nothing panics — the step is total, returns the unchanged nil channel
and the request proceeds. -/
theorem C9_nil_channel_drop (s : Step) :
    sendReady (Chan.nil : Chan Step) = false ∧
    trySend (Chan.nil : Chan Step) s = (Chan.nil, false) :=
  ⟨rfl, rfl⟩

/-- C10 counterexample: with userID = token = "x" the trace id equals
the raw token followed by the colon and the digest — the raw token
value does appear in the trace ID (as its leading component), refuting
"the raw token value never appears in the trace ID". -/
theorem C10_counterexample :
    defaultTraceIDGenerator "x" "x" = "x" ++ (":" ++ sha256HexOf "x") := by
  show "x" ++ ":" ++ sha256HexOf "x" = "x" ++ (":" ++ sha256HexOf "x")
  rw [String.append_assoc]

/-- C10 (amended): the default trace id generator is deterministic — a
pure function of the pair (userID, token), two invocations giving the
same string — and the id is userID, a colon, then the lowercase hex
SHA-256 digest of the token bytes: the digest component is 64
characters, every one a lowercase hex digit, so the digest portion is
the hash rather than the raw token; the raw token can still appear in
the id through the userID component (see the counterexample). -/
theorem C10_traceid_shape (u t : String) :
    defaultTraceIDGenerator u t = u ++ ":" ++ sha256HexOf t ∧
    defaultTraceIDGenerator u t = defaultTraceIDGenerator u t ∧
    sha256HexOf t = hexLower (sha256 (strBytes t)) ∧
    (sha256HexOf t).length = 64 ∧
    ∀ ch ∈ (sha256HexOf t).data, ch ∈ hexDigits := by
  refine ⟨rfl, rfl, rfl, ?_, hexLower_mem _⟩
  show (hexLower (sha256 (strBytes t))).length = 64
  rw [hexLower_length, sha256_length]

end Trace
